import Mathlib

/-!
Verification development for the ai-news-aggregator repository.

The repository's pipeline engine is described by the specification and by
`src/docs/langgraph-data-flow.md`; the presentation layers are TypeScript
sources under `src/frontend` and `src/admin`.  Pure functions from the
TypeScript sources are embedded directly; the pipeline nodes whose Python
sources are not in the repository snapshot are modelled from the
specification, as marked on each definition.
-/

namespace NewsAggregator

/-! ## Deduplicator data model

Modelled from the spec: the Deduplicator node (`deduplicate.py` is not in
the snapshot; only `src/docs/langgraph-data-flow.md` describes it).  A
`RawItem` is an article as fetched, pre-enrichment; the merge-tracking
metadata (`merged_from_sources`, `merged_from_ids`, stored inside
`raw_metadata` in the Python code) is modelled as two explicit list fields,
initialised by a collector to the singleton of the item's own source kind
and source id.  Timestamps are modelled as integers (minutes since an
arbitrary epoch). -/

inductive SourceType where
  | rss
  | gmail
deriving DecidableEq, Repr

structure RawItem where
  source_type : SourceType
  source_id : String
  item_id : String
  title : Option String
  content : String
  author : Option String
  published_at : Int
  url : Option String
  mergedFromSources : List SourceType
  mergedFromIds : List String
deriving DecidableEq, Repr

/-- Modelled from the spec: merging two duplicates sharing an `item_id`
keeps the longest `content`, the earliest `published_at`, unions the
merge-tracking source kinds and ids, and keeps the first-seen item's
display fields (`source_type`, `source_id`, `title`, `url`). -/
def mergeItems (a b : RawItem) : RawItem :=
  { a with
    content := if a.content.length < b.content.length then b.content else a.content
    published_at := min a.published_at b.published_at
    mergedFromSources :=
      a.mergedFromSources ++
        b.mergedFromSources.filter (fun k => decide (k ∉ a.mergedFromSources))
    mergedFromIds :=
      a.mergedFromIds ++
        b.mergedFromIds.filter (fun i => decide (i ∉ a.mergedFromIds)) }

/-- Modelled from the spec: group the batch by `item_id` (groups appear in
first-occurrence order) and merge each group into one canonical item. -/
def dedupPass : List RawItem → List RawItem
  | [] => []
  | it :: rest =>
      (rest.filter (fun x => decide (x.item_id = it.item_id))).foldl mergeItems it ::
        dedupPass (rest.filter (fun x => decide (¬ x.item_id = it.item_id)))
termination_by l => l.length
decreasing_by
  simp only [List.length_cons]
  exact Nat.lt_succ_of_le (List.length_filter_le _ _)

/-- The output ordering of the Deduplicator: `published_at` descending
(newest first). -/
def newestFirst (a b : RawItem) : Prop :=
  b.published_at ≤ a.published_at

instance : DecidableRel newestFirst := fun a b =>
  inferInstanceAs (Decidable (b.published_at ≤ a.published_at))

instance : IsTotal RawItem newestFirst :=
  ⟨fun a b => le_total b.published_at a.published_at⟩

instance : IsTrans RawItem newestFirst :=
  ⟨fun _ _ _ h₁ h₂ => le_trans h₂ h₁⟩

/-- Modelled from the spec: the Deduplicator returns one canonical item per
distinct `item_id`, sorted by `published_at` descending. -/
def deduplicate (items : List RawItem) : List RawItem :=
  List.insertionSort newestFirst (dedupPass items)

theorem dedupPass_nil : dedupPass [] = [] := by
  simp [dedupPass]

theorem dedupPass_cons (it : RawItem) (rest : List RawItem) :
    dedupPass (it :: rest) =
      (rest.filter (fun x => decide (x.item_id = it.item_id))).foldl mergeItems it ::
        dedupPass (rest.filter (fun x => decide (¬ x.item_id = it.item_id))) := by
  rw [dedupPass]

/-- Strong induction on list length, used to reason about `dedupPass`,
whose recursive call is on a filtered (shorter, not structurally smaller)
list. -/
theorem list_strong_ind {α : Type} (P : List α → Prop)
    (ih : ∀ l, (∀ l', l'.length < l.length → P l') → P l) : ∀ l, P l := by
  have key : ∀ (n : Nat) (l : List α), l.length ≤ n → P l := by
    intro n
    induction n with
    | zero =>
        intro l hl
        exact ih l fun l' hl' =>
          absurd (Nat.lt_of_lt_of_le hl' hl) (Nat.not_lt_zero _)
    | succ n ihn =>
        intro l hl
        exact ih l fun l' hl' =>
          ihn l' (Nat.le_of_lt_succ (Nat.lt_of_lt_of_le hl' hl))
  exact fun l => key l.length l le_rfl

theorem mergeItems_item_id (a b : RawItem) :
    (mergeItems a b).item_id = a.item_id := rfl

theorem foldl_mergeItems_item_id (l : List RawItem) :
    ∀ a : RawItem, (l.foldl mergeItems a).item_id = a.item_id := by
  induction l with
  | nil => intro a; rfl
  | cons b l ihl => intro a; rw [List.foldl_cons, ihl, mergeItems_item_id]

theorem dedupPass_keys_of_mem :
    ∀ l : List RawItem, ∀ k, k ∈ (dedupPass l).map RawItem.item_id →
      ∃ x ∈ l, x.item_id = k := by
  refine list_strong_ind _ ?_
  intro l ihl k hk
  match l with
  | [] => rw [dedupPass_nil] at hk; simp at hk
  | it :: rest =>
      rw [dedupPass_cons, List.map_cons, List.mem_cons] at hk
      rcases hk with hk | hk
      · exact ⟨it, List.mem_cons_self _ _, by
          rw [hk, foldl_mergeItems_item_id]⟩
      · obtain ⟨x, hx, hxk⟩ := ihl _
          (by simpa using Nat.lt_succ_of_le (List.length_filter_le _ rest)) k hk
        exact ⟨x, List.mem_cons_of_mem _ (List.mem_of_mem_filter hx), hxk⟩

theorem dedupPass_keys_nodup :
    ∀ l : List RawItem, ((dedupPass l).map RawItem.item_id).Nodup := by
  refine list_strong_ind _ ?_
  intro l ihl
  match l with
  | [] => rw [dedupPass_nil]; simp
  | it :: rest =>
      rw [dedupPass_cons, List.map_cons, List.nodup_cons]
      have hlen : (rest.filter (fun x => decide (¬ x.item_id = it.item_id))).length
          < (it :: rest).length := by
        simpa using Nat.lt_succ_of_le (List.length_filter_le _ rest)
      refine ⟨?_, ihl _ hlen⟩
      intro hmem
      rw [foldl_mergeItems_item_id] at hmem
      obtain ⟨x, hx, hxk⟩ := dedupPass_keys_of_mem _ _ hmem
      rw [List.mem_filter] at hx
      exact (by simpa using hx.2 : ¬ x.item_id = it.item_id) hxk

theorem dedupPass_of_keys_nodup :
    ∀ l : List RawItem, (l.map RawItem.item_id).Nodup → dedupPass l = l := by
  intro l
  induction l with
  | nil => intro _; exact dedupPass_nil
  | cons it rest ihl =>
      intro hn
      rw [List.map_cons, List.nodup_cons] at hn
      have hne : ∀ x ∈ rest, ¬ x.item_id = it.item_id := by
        intro x hx heq
        exact hn.1 (heq ▸ List.mem_map_of_mem RawItem.item_id hx)
      have h₁ : rest.filter (fun x => decide (x.item_id = it.item_id)) = [] := by
        refine List.filter_eq_nil_iff.2 ?_
        intro x hx
        simpa using hne x hx
      have h₂ : rest.filter (fun x => decide (¬ x.item_id = it.item_id)) = rest := by
        refine List.filter_eq_self.2 ?_
        intro x hx
        simpa using hne x hx
      rw [dedupPass_cons, h₁, h₂, List.foldl_nil, ihl hn.2]

theorem dedupPass_pair (a b : RawItem) (hid : a.item_id = b.item_id) :
    dedupPass [a, b] = [mergeItems a b] := by
  rw [dedupPass_cons]
  rw [show List.filter (fun x => decide (x.item_id = a.item_id)) [b] = [b] by
    simp [hid]]
  rw [show List.filter (fun x => decide (¬ x.item_id = a.item_id)) [b] = [] by
    simp [hid]]
  rw [dedupPass_nil]
  rfl

theorem mem_append_filter_not_mem {α : Type} [DecidableEq α]
    (l₁ l₂ : List α) (k : α) :
    k ∈ l₁ ++ l₂.filter (fun x => decide (x ∉ l₁)) ↔ k ∈ l₁ ∨ k ∈ l₂ := by
  simp only [List.mem_append, List.mem_filter, decide_eq_true_eq]
  constructor
  · rintro (h | ⟨h, _⟩)
    · exact Or.inl h
    · exact Or.inr h
  · intro h
    by_cases ha : k ∈ l₁
    · exact Or.inl ha
    · rcases h with h | h
      · exact absurd h ha
      · exact Or.inr ⟨h, ha⟩

theorem mergeItems_content_length (a b : RawItem) :
    (mergeItems a b).content.length = max a.content.length b.content.length := by
  simp only [mergeItems]
  split
  · next h => exact (Nat.max_eq_right (Nat.le_of_lt h)).symm
  · next h => exact (Nat.max_eq_left (Nat.le_of_not_lt h)).symm

/-- Sample duplicate pair for the spec's concrete scenario: the same
article seen by an RSS feed (200-character content, published at 09:00,
modelled as minute 540) and by a Gmail source (80-character content,
published at 12:00, modelled as minute 720). -/
def sampleItemA : RawItem :=
  { source_type := .rss
    source_id := "feed_url"
    item_id := "item1"
    title := some "Title"
    content := String.mk (List.replicate 200 'a')
    author := none
    published_at := 540
    url := some "https://article.com"
    mergedFromSources := [.rss]
    mergedFromIds := ["feed_url"] }

def sampleItemB : RawItem :=
  { source_type := .gmail
    source_id := "sender@email.com"
    item_id := "item1"
    title := some "Title"
    content := String.mk (List.replicate 80 'b')
    author := none
    published_at := 720
    url := some "https://article.com"
    mergedFromSources := [.gmail]
    mergedFromIds := ["sender@email.com"] }

/-- C1: for a pair of RawItems sharing an `item_id`, the Deduplicator
emits exactly one merged item in either input order; the merge keeps the
longest content, the earliest `published_at`, and unions the
merge-tracking source kinds and ids, independently of input order; in the
spec's concrete scenario (200-character content published at 09:00, i.e.
minute 540, versus 80-character content published at 12:00, i.e. minute
720, from two sources) the merged item has the 200-character content,
`published_at` 540, and both source kinds in `mergedFromSources`. -/
theorem deduplicate_merge_pair (a b : RawItem) (hid : a.item_id = b.item_id) :
    deduplicate [a, b] = [mergeItems a b] ∧
    deduplicate [b, a] = [mergeItems b a] ∧
    (∀ x y : RawItem,
      (mergeItems x y).content.length = max x.content.length y.content.length ∧
      (mergeItems x y).published_at = min x.published_at y.published_at ∧
      (∀ k, k ∈ (mergeItems x y).mergedFromSources ↔
        k ∈ x.mergedFromSources ∨ k ∈ y.mergedFromSources) ∧
      (∀ i, i ∈ (mergeItems x y).mergedFromIds ↔
        i ∈ x.mergedFromIds ∨ i ∈ y.mergedFromIds)) ∧
    (a.content.length ≠ b.content.length →
      (mergeItems a b).content = (mergeItems b a).content) ∧
    (a.content.length = 200 → b.content.length = 80 →
      a.published_at = 540 → b.published_at = 720 →
      a.mergedFromSources = [a.source_type] →
      b.mergedFromSources = [b.source_type] →
      (mergeItems a b).content = a.content ∧
      (mergeItems b a).content = a.content ∧
      (mergeItems a b).published_at = 540 ∧
      (mergeItems b a).published_at = 540 ∧
      a.source_type ∈ (mergeItems a b).mergedFromSources ∧
      b.source_type ∈ (mergeItems a b).mergedFromSources ∧
      a.source_type ∈ (mergeItems b a).mergedFromSources ∧
      b.source_type ∈ (mergeItems b a).mergedFromSources) := by
  refine ⟨?_, ?_, ?_, ?_, ?_⟩
  · show List.insertionSort newestFirst (dedupPass [a, b]) = _
    rw [dedupPass_pair a b hid]
    rfl
  · show List.insertionSort newestFirst (dedupPass [b, a]) = _
    rw [dedupPass_pair b a hid.symm]
    rfl
  · intro x y
    refine ⟨mergeItems_content_length x y, rfl, ?_, ?_⟩
    · intro k; exact mem_append_filter_not_mem _ _ k
    · intro i; exact mem_append_filter_not_mem _ _ i
  · intro hne
    simp only [mergeItems]
    rcases Nat.lt_or_ge a.content.length b.content.length with h | h
    · rw [if_pos h, if_neg (Nat.not_lt_of_le (Nat.le_of_lt h))]
    · rw [if_neg (Nat.not_lt_of_le h),
        if_pos (Nat.lt_of_le_of_ne h (Ne.symm hne))]
  · intro h200 h80 h540 h720 hma hmb
    have hlt : ¬ a.content.length < b.content.length := by
      rw [h200, h80]; decide
    have hlt' : b.content.length < a.content.length := by
      rw [h200, h80]; decide
    refine ⟨?_, ?_, ?_, ?_, ?_, ?_, ?_, ?_⟩
    · simp only [mergeItems]; rw [if_neg hlt]
    · simp only [mergeItems]; rw [if_pos hlt']
    · show min a.published_at b.published_at = 540
      rw [h540, h720]; decide
    · show min b.published_at a.published_at = 540
      rw [h540, h720]; decide
    · exact (mem_append_filter_not_mem _ _ _).2
        (Or.inl (hma ▸ List.mem_singleton_self _))
    · exact (mem_append_filter_not_mem _ _ _).2
        (Or.inr (hmb ▸ List.mem_singleton_self _))
    · exact (mem_append_filter_not_mem _ _ _).2
        (Or.inr (hma ▸ List.mem_singleton_self _))
    · exact (mem_append_filter_not_mem _ _ _).2
        (Or.inl (hmb ▸ List.mem_singleton_self _))

set_option maxRecDepth 4000 in
/-- Witness for C1: the theorem instantiated on the concrete scenario pair
`sampleItemA` / `sampleItemB`. -/
theorem deduplicate_merge_pair_witness :
    deduplicate [sampleItemA, sampleItemB] = [mergeItems sampleItemA sampleItemB] ∧
    (mergeItems sampleItemA sampleItemB).content = sampleItemA.content ∧
    (mergeItems sampleItemA sampleItemB).published_at = 540 ∧
    SourceType.rss ∈ (mergeItems sampleItemA sampleItemB).mergedFromSources ∧
    SourceType.gmail ∈ (mergeItems sampleItemA sampleItemB).mergedFromSources := by
  obtain ⟨h1, _, _, _, h5⟩ := deduplicate_merge_pair sampleItemA sampleItemB rfl
  obtain ⟨c1, _, c3, _, s1, s2, _, _⟩ :=
    h5 (by decide) (by decide) rfl rfl rfl rfl
  exact ⟨h1, c1, c3, s1, s2⟩

/-- C2: deduplication is idempotent: running the Deduplicator on its own
output returns that output unchanged (same items, same merged fields, same
order). -/
theorem deduplicate_idempotent (items : List RawItem) :
    deduplicate (deduplicate items) = deduplicate items := by
  unfold deduplicate
  have h1 : ((dedupPass items).map RawItem.item_id).Nodup :=
    dedupPass_keys_nodup items
  have hp : List.Perm (List.insertionSort newestFirst (dedupPass items))
      (dedupPass items) :=
    List.perm_insertionSort _ _
  have h2 : ((List.insertionSort newestFirst (dedupPass items)).map
      RawItem.item_id).Nodup :=
    ((hp.map RawItem.item_id).nodup_iff).2 h1
  rw [dedupPass_of_keys_nodup _ h2]
  exact List.Sorted.insertionSort_eq (List.sorted_insertionSort _ _)

/-! ## API clients

Embedding of `src/frontend/src/api/client.ts` and
`src/admin/src/api/client.ts`.  A browser `Response` is modelled by the
fields the clients read (`ok`, `status`, `statusText`, and the parsed
body, kept abstract as a string); `URLSearchParams` percent-encoding is
elided, as all values involved are plain tokens. -/

structure ApiError where
  name : String
  message : String
  status : Nat
deriving DecidableEq, Repr

structure HttpResponse where
  ok : Bool
  status : Nat
  statusText : String
  body : String
deriving DecidableEq, Repr

/-- `fetchJson` from `src/frontend/src/api/client.ts`: resolve with the
parsed body iff `response.ok`, otherwise throw an `ApiError` carrying the
response's status code. -/
def frontendFetchJson (r : HttpResponse) : Except ApiError String :=
  if r.ok then Except.ok r.body
  else Except.error
    { name := "ApiError"
      message := "API request failed: " ++ r.statusText
      status := r.status }

/-- `fetchJson` from `src/admin/src/api/client.ts`; the extra
`RequestInit` options argument only configures the outgoing fetch and does
not affect how the response is handled, so it is not part of the model. -/
def adminFetchJson (r : HttpResponse) : Except ApiError String :=
  if r.ok then Except.ok r.body
  else Except.error
    { name := "ApiError"
      message := "API request failed: " ++ r.statusText
      status := r.status }

/-- `FetchItemsParams` from `src/frontend/src/api/client.ts`; an absent
field is `none`. -/
structure FetchItemsParams where
  limit : Option Int
  topic : Option String
  articleType : Option String
deriving DecidableEq, Repr

/-- The `limit` entry set by `fetchItems`: present iff `params.limit` is
truthy, i.e. a non-zero number. -/
def limitParam : Option Int → List (String × String)
  | some n => if n ≠ 0 then [("limit", toString n)] else []
  | none => []

/-- The `topic` entry set by `fetchItems`: present iff `params.topic` is
truthy, i.e. a non-empty string. -/
def topicParam : Option String → List (String × String)
  | some s => if s ≠ "" then [("topic", s)] else []
  | none => []

/-- The `article_type` entry set by `fetchItems`: present iff
`params.articleType` is truthy, i.e. a non-empty string. -/
def articleTypeParam : Option String → List (String × String)
  | some s => if s ≠ "" then [("article_type", s)] else []
  | none => []

/-- The query parameters set by `fetchItems`, in insertion order. -/
def fetchItemsQuery (p : FetchItemsParams) : List (String × String) :=
  limitParam p.limit ++ topicParam p.topic ++ articleTypeParam p.articleType

/-- `URLSearchParams.toString`: key=value pairs joined by ampersands. -/
def renderQuery : List (String × String) → String
  | [] => ""
  | kv :: rest =>
      rest.foldl (fun acc kv2 => acc ++ "&" ++ kv2.1 ++ "=" ++ kv2.2)
        (kv.1 ++ "=" ++ kv.2)

/-- The URL requested by `fetchItems`: `/api/items`, with a question mark
and query string appended only when the query string is non-empty. -/
def fetchItemsUrl (p : FetchItemsParams) : String :=
  "/api/items" ++
    (if renderQuery (fetchItemsQuery p) = ""
      then ""
      else "?" ++ renderQuery (fetchItemsQuery p))

/-- `NewsItem` from `src/frontend/src/api/client.ts`. -/
structure NewsItem where
  id : String
  title : String
  summary : String
  key_points : List String
  topics : List String
  article_type : String
  urls : List String
  sources : List String
  published_at : String
deriving DecidableEq, Repr

/-- `ItemsResponse` from `src/frontend/src/api/client.ts`. -/
structure ItemsResponse where
  items : List NewsItem
  count : Nat
  total : Option Nat
deriving DecidableEq, Repr

/-! ## Admin types (src/admin/src/types/index.ts) -/

inductive PipelineStatus where
  | running
  | completed
  | failed
deriving DecidableEq, Repr

/-- `PipelineRun` from `src/admin/src/types/index.ts`; JS numbers are
modelled as integers for the counters and as an exact rational for the
duration. -/
structure PipelineRun where
  run_id : String
  run_date : String
  started_at : Option String
  completed_at : Option String
  items_collected : Int
  items_processed : Int
  items_persisted : Int
  status : PipelineStatus
  error_message : Option String
  duration_seconds : Option ℚ
deriving DecidableEq, Repr

/-- The JSON field names of a `PipelineRun` record, in declaration order
of the interface in `src/admin/src/types/index.ts`. -/
def pipelineRunFields : List String :=
  ["run_id", "run_date", "started_at", "completed_at", "items_collected",
   "items_processed", "items_persisted", "status", "error_message",
   "duration_seconds"]

structure PipelineRunsResponse where
  runs : List PipelineRun
  count : Nat
deriving DecidableEq, Repr

inductive RunStatus where
  | started
  | completed
  | failed
deriving DecidableEq, Repr

structure RunStats where
  total_items : Option Int
  persisted_count : Option Int
  collection_errors : Option Int
deriving DecidableEq, Repr

/-- `RunResponse` from `src/admin/src/types/index.ts`. -/
structure RunResponse where
  status : RunStatus
  run_id : Option String
  message : String
  stats : Option RunStats
deriving DecidableEq, Repr

/-- The JSON field names of a `RunResponse`, in declaration order of the
interface in `src/admin/src/types/index.ts`. -/
def runResponseFields : List String :=
  ["status", "run_id", "message", "stats"]

inductive HttpMethod where
  | get
  | post
deriving DecidableEq, Repr

/-- An outgoing request as the admin client builds it: URL, method,
headers, and the JSON body as a list of key/value fields. -/
structure HttpRequest where
  url : String
  method : HttpMethod
  headers : List (String × String)
  body : List (String × Int)
deriving DecidableEq, Repr

/-- `triggerRun` from `src/admin/src/api/client.ts`: a POST to `/api/run`
whose JSON body is `\x7b backfill_days: n \x7d`. -/
def triggerRun (backfillDays : Int) : HttpRequest :=
  { url := "/api/run"
    method := .post
    headers := [("Content-Type", "application/json")]
    body := [("backfill_days", backfillDays)] }

/-- The URL requested by `fetchPipelineRuns`. -/
def fetchPipelineRunsUrl (limit : Int) : String :=
  "/api/admin/runs?limit=" ++ toString limit

/-! ## Frontend components -/

/-- `typeLabels` from `src/frontend/src/components/ArticleTypeFilter.tsx`. -/
def typeLabels : List (String × String) :=
  [("news", "News"), ("tutorial", "Tutorials")]

/-- `topicColors` from `src/frontend/src/components/NewsCard.tsx`. -/
def topicColors : List (String × String) :=
  [("LLMs", "bg-purple-100 text-purple-800"),
   ("AI Agents", "bg-blue-100 text-blue-800"),
   ("AI Safety", "bg-red-100 text-red-800"),
   ("MLOps", "bg-green-100 text-green-800"),
   ("Computer Vision", "bg-yellow-100 text-yellow-800"),
   ("NLP", "bg-indigo-100 text-indigo-800"),
   ("Open Source", "bg-orange-100 text-orange-800"),
   ("Products", "bg-pink-100 text-pink-800"),
   ("Research", "bg-cyan-100 text-cyan-800"),
   ("Industry", "bg-gray-100 text-gray-800")]

/-- `articleTypeConfig` from `src/frontend/src/components/NewsCard.tsx`:
key, label, colour classes. -/
def articleTypeConfig : List (String × String × String) :=
  [("news", "News", "bg-slate-100 text-slate-700"),
   ("tutorial", "Tutorial", "bg-teal-100 text-teal-700")]

/-! ## Enricher result validation

Modelled from the spec: `summarize.py` is not in the snapshot; per spec
4.4 and `src/docs/langgraph-data-flow.md`, the external summarization
service returns a structured result whose `article_type` must belong to
the set of the two values news and tutorial (anything else is a validation
failure) and whose `topics` must be restricted to the fixed category
enumeration, unknown categories being dropped rather than passed
through. -/

/-- The fixed topic category enumeration (`TOPIC_CATEGORIES`), as listed
in `src/unnamed/part_008` and `src/docs/langgraph-data-flow.md`. -/
def TOPIC_CATEGORIES : List String :=
  ["LLMs", "AI Agents", "AI Safety", "MLOps", "Computer Vision", "NLP",
   "Open Source", "Products", "Research", "Industry"]

inductive ArticleType where
  | news
  | tutorial
deriving DecidableEq, Repr

/-- The raw structured result returned by the external summarization
service, before validation. -/
structure ArticleSummaryRaw where
  title : String
  summary : String
  key_points : List String
  topics : List String
  article_type : String
deriving DecidableEq, Repr

/-- A validated structured result. -/
structure ArticleSummary where
  title : String
  summary : String
  key_points : List String
  topics : List String
  article_type : ArticleType
deriving DecidableEq, Repr

/-- Modelled from the spec: the article type is restricted to the two
values news and tutorial; any other string is a validation failure. -/
def parseArticleType (s : String) : Option ArticleType :=
  if s = "news" then some ArticleType.news
  else if s = "tutorial" then some ArticleType.tutorial
  else none

/-- Modelled from the spec: schema validation of the external service's
structured result.  An out-of-enumeration article type fails validation
(triggering retry and eventually dropping the item); out-of-enumeration
topics are silently dropped from the topic list. -/
def validateSummary (r : ArticleSummaryRaw) : Option ArticleSummary :=
  (parseArticleType r.article_type).map fun ty =>
    { title := r.title
      summary := r.summary
      key_points := r.key_points
      topics := r.topics.filter (fun c => decide (c ∈ TOPIC_CATEGORIES))
      article_type := ty }

/-! ## RunsTable duration formatting
(src/admin/src/components/RunsTable.tsx) -/

/-- `Math.round` on a JS number, modelled on exact rationals: round half
toward positive infinity. -/
def jsRound (q : ℚ) : Int := ⌊q + 1 / 2⌋

/-- JS truncation toward zero, used by the `%` operator. -/
def jsTrunc (q : ℚ) : Int := if 0 ≤ q then ⌊q⌋ else -⌊-q⌋

/-- The JS remainder operator `a % b` on numbers (sign follows the
dividend). -/
def jsMod (a b : ℚ) : ℚ := a - b * jsTrunc (a / b)

/-- `formatDuration` from `src/admin/src/components/RunsTable.tsx`,
with JS numbers modelled as exact rationals. -/
def formatDuration : Option ℚ → String
  | none => "-"
  | some seconds =>
      if seconds < 60 then toString (jsRound seconds) ++ "s"
      else
        toString ⌊seconds / 60⌋ ++ "m " ++
          toString (jsRound (jsMod seconds 60)) ++ "s"

/-- Concrete responses used as witnesses for the client theorems. -/
def okResponse : HttpResponse :=
  { ok := true, status := 200, statusText := "OK", body := "[]" }

def errResponse : HttpResponse :=
  { ok := false, status := 404, statusText := "Not Found", body := "" }

/-- C8: for every HTTP response, `fetchJson` — identical in the frontend
and admin API clients — resolves with the parsed body exactly when
`response.ok` is true, and otherwise throws an `ApiError` whose `status`
field equals the response's HTTP status code and whose `name` is
ApiError. -/
theorem fetchJson_ok_iff (r : HttpResponse) :
    frontendFetchJson r = adminFetchJson r ∧
    (frontendFetchJson r = Except.ok r.body ↔ r.ok = true) ∧
    (r.ok = false →
      ∃ e : ApiError, frontendFetchJson r = Except.error e ∧
        e.status = r.status ∧ e.name = "ApiError" ∧
        e.message = "API request failed: " ++ r.statusText) := by
  refine ⟨rfl, ?_, ?_⟩
  · cases hok : r.ok <;> simp [frontendFetchJson, hok]
  · intro hok
    refine ⟨{ name := "ApiError"
              message := "API request failed: " ++ r.statusText
              status := r.status }, ?_, rfl, rfl, rfl⟩
    simp [frontendFetchJson, hok]

/-- Witness for C8: the theorem applied to a 200 response and to a 404
response. -/
theorem fetchJson_ok_iff_witness :
    frontendFetchJson okResponse = Except.ok "[]" ∧
    ∃ e : ApiError, frontendFetchJson errResponse = Except.error e ∧
      e.status = 404 ∧ e.name = "ApiError" ∧
      e.message = "API request failed: Not Found" :=
  ⟨(fetchJson_ok_iff okResponse).2.1.2 rfl,
   (fetchJson_ok_iff errResponse).2.2 rfl⟩

theorem exists_val_of_eq {α β : Type} (g : β → α) (P Q : β → Prop) :
    (∃ v n, P n ∧ Q n ∧ v = g n) ↔ ∃ n, P n ∧ Q n :=
  ⟨fun ⟨_, n, hp, hq, _⟩ => ⟨n, hp, hq⟩,
   fun ⟨n, hp, hq⟩ => ⟨g n, n, hp, hq, rfl⟩⟩

theorem mem_limitParam (l : Option Int) (k v : String) :
    (k, v) ∈ limitParam l ↔
      ∃ n, l = some n ∧ n ≠ 0 ∧ k = "limit" ∧ v = toString n := by
  cases l with
  | none => simp [limitParam]
  | some n =>
      by_cases h : n = 0
      · simp [limitParam, h]
      · simp [limitParam, h, and_assoc]

theorem mem_topicParam (t : Option String) (k v : String) :
    (k, v) ∈ topicParam t ↔
      ∃ s, t = some s ∧ s ≠ "" ∧ k = "topic" ∧ v = s := by
  cases t with
  | none => simp [topicParam]
  | some s =>
      by_cases h : s = ""
      · simp [topicParam, h]
      · simp [topicParam, h, and_assoc]

theorem mem_articleTypeParam (a : Option String) (k v : String) :
    (k, v) ∈ articleTypeParam a ↔
      ∃ s, a = some s ∧ s ≠ "" ∧ k = "article_type" ∧ v = s := by
  cases a with
  | none => simp [articleTypeParam]
  | some s =>
      by_cases h : s = ""
      · simp [articleTypeParam, h]
      · simp [articleTypeParam, h, and_assoc]

/-- C9: for every params argument, `fetchItems` requests `/api/items` with
a `limit` parameter iff `params.limit` is a truthy (non-zero) number, a
`topic` parameter iff `params.topic` is a non-empty string, and an
`article_type` parameter iff `params.articleType` is a non-empty string;
for the empty params object, and also when `limit` is `0`, the requested
URL is exactly `/api/items` with no question mark appended. -/
theorem fetchItems_url_params (p : FetchItemsParams) :
    ((∃ v, ("limit", v) ∈ fetchItemsQuery p) ↔
      ∃ n, p.limit = some n ∧ n ≠ 0) ∧
    ((∃ v, ("topic", v) ∈ fetchItemsQuery p) ↔
      ∃ s, p.topic = some s ∧ s ≠ "") ∧
    ((∃ v, ("article_type", v) ∈ fetchItemsQuery p) ↔
      ∃ s, p.articleType = some s ∧ s ≠ "") ∧
    fetchItemsUrl { limit := none, topic := none, articleType := none } =
      "/api/items" ∧
    fetchItemsUrl { limit := some 0, topic := none, articleType := none } =
      "/api/items" := by
  obtain ⟨l, t, a⟩ := p
  refine ⟨?_, ?_, ?_, by decide, by decide⟩ <;>
    (simp only [fetchItemsQuery, List.mem_append, mem_limitParam,
       mem_topicParam, mem_articleTypeParam]
     simp [exists_val_of_eq])

/-- Witness for C9: the theorem applied at a concrete params with a truthy
limit, and at the empty params. -/
theorem fetchItems_url_params_witness :
    (∃ v, ("limit", v) ∈ fetchItemsQuery
      { limit := some 50, topic := none, articleType := none }) ∧
    fetchItemsUrl { limit := none, topic := none, articleType := none } =
      "/api/items" :=
  ⟨(fetchItems_url_params
      { limit := some 50, topic := none, articleType := none }).1.2
      ⟨50, rfl, by decide⟩,
   (fetchItems_url_params
      { limit := none, topic := none, articleType := none }).2.2.2.1⟩

/-- C3 counterexample: at the concrete input 7, the trigger request's JSON
body field is named backfill_days, not backfillWindowDays as the claim
states. -/
theorem triggerRun_body_field_cx :
    (triggerRun 7).body.map Prod.fst = ["backfill_days"] ∧
    (triggerRun 7).body.map Prod.fst ≠ ["backfillWindowDays"] := by
  decide

/-- C3 (amended): for every integer n, triggering a run sends a POST to
`/api/run` whose single JSON body field is backfill_days with value n, and
every response carries a status drawn from started | completed | failed
together with run_id, message and stats fields. -/
theorem triggerRun_request_response (n : Int) :
    (triggerRun n).url = "/api/run" ∧
    (triggerRun n).method = HttpMethod.post ∧
    (triggerRun n).body = [("backfill_days", n)] ∧
    runResponseFields = ["status", "run_id", "message", "stats"] ∧
    ∀ r : RunResponse,
      r.status = RunStatus.started ∨ r.status = RunStatus.completed ∨
        r.status = RunStatus.failed := by
  refine ⟨rfl, rfl, rfl, rfl, ?_⟩
  intro r
  cases hs : r.status
  · exact Or.inl rfl
  · exact Or.inr (Or.inl rfl)
  · exact Or.inr (Or.inr rfl)

/-- Concrete run-trigger response used as a witness. -/
def sampleRunResponse : RunResponse :=
  { status := RunStatus.started
    run_id := some "run_20240115_143022_abc123"
    message := "Pipeline run started"
    stats := none }

/-- Witness for the amended C3: the theorem applied at backfill 7 and at a
concrete started response. -/
theorem triggerRun_request_response_witness :
    (triggerRun 7).body = [("backfill_days", 7)] ∧
    (sampleRunResponse.status = RunStatus.started ∨
      sampleRunResponse.status = RunStatus.completed ∨
      sampleRunResponse.status = RunStatus.failed) :=
  ⟨(triggerRun_request_response 7).2.2.1,
   (triggerRun_request_response 7).2.2.2.2 sampleRunResponse⟩

/-- C4 counterexample: at the concrete fullest filter combination the
client can issue, the query holds exactly the keys limit, topic and
article_type — no minimum-relevance parameter is carried, so the request
never filters by minimum relevance. -/
theorem fetchItems_no_min_relevance_cx :
    (fetchItemsQuery
      { limit := some 50, topic := some "LLMs", articleType := some "news" }).map
        Prod.fst = ["limit", "topic", "article_type"] ∧
    "min_relevance" ∉
      (fetchItemsQuery
        { limit := some 50, topic := some "LLMs", articleType := some "news" }).map
          Prod.fst := by
  decide

/-- C4 (amended): the client's query operation filters by topic and
article type (plus a limit); it carries no minimum-relevance parameter —
every query key is one of limit, topic, article_type — and the response is
shaped as an item list, a count, and an optional total. -/
theorem fetchItems_filters_amended (p : FetchItemsParams) :
    (∀ kv ∈ fetchItemsQuery p,
      kv.1 = "limit" ∨ kv.1 = "topic" ∨ kv.1 = "article_type") ∧
    (∀ s, p.topic = some s → s ≠ "" → ("topic", s) ∈ fetchItemsQuery p) ∧
    (∀ s, p.articleType = some s → s ≠ "" →
      ("article_type", s) ∈ fetchItemsQuery p) ∧
    (∀ r : ItemsResponse,
      r = { items := r.items, count := r.count, total := r.total }) := by
  refine ⟨?_, ?_, ?_, fun r => rfl⟩
  · rintro ⟨k, v⟩ hkv
    rw [fetchItemsQuery] at hkv
    rcases List.mem_append.1 hkv with h' | h
    · rcases List.mem_append.1 h' with h | h
      · obtain ⟨n, _, _, hk, _⟩ := (mem_limitParam p.limit k v).1 h
        exact Or.inl hk
      · obtain ⟨s, _, _, hk, _⟩ := (mem_topicParam p.topic k v).1 h
        exact Or.inr (Or.inl hk)
    · obtain ⟨s, _, _, hk, _⟩ := (mem_articleTypeParam p.articleType k v).1 h
      exact Or.inr (Or.inr hk)
  · intro s hs hne
    exact List.mem_append.2 (Or.inl (List.mem_append.2 (Or.inr
      ((mem_topicParam p.topic "topic" s).2 ⟨s, hs, hne, rfl, rfl⟩))))
  · intro s hs hne
    exact List.mem_append.2 (Or.inr
      ((mem_articleTypeParam p.articleType "article_type" s).2
        ⟨s, hs, hne, rfl, rfl⟩))

/-- Witness for the amended C4: the theorem applied at the fullest
concrete filter combination. -/
theorem fetchItems_filters_amended_witness :
    ("topic", "LLMs") ∈ fetchItemsQuery
      { limit := some 50, topic := some "LLMs", articleType := some "news" } ∧
    ("article_type", "news") ∈ fetchItemsQuery
      { limit := some 50, topic := some "LLMs", articleType := some "news" } :=
  ⟨(fetchItems_filters_amended
      { limit := some 50, topic := some "LLMs", articleType := some "news" }).2.1
      "LLMs" rfl (by decide),
   (fetchItems_filters_amended
      { limit := some 50, topic := some "LLMs", articleType := some "news" }).2.2.1
      "news" rfl (by decide)⟩

/-- C5 counterexample: the run-history record has no field named runId (or
startedAt); its fields are snake_case, e.g. run_id. -/
theorem pipelineRun_fields_cx :
    "runId" ∉ pipelineRunFields ∧ "startedAt" ∉ pipelineRunFields ∧
    "run_id" ∈ pipelineRunFields := by
  decide

/-- Concrete run record and run-history response used as witnesses. -/
def sampleRun : PipelineRun :=
  { run_id := "run_20240115_143022_abc123"
    run_date := "2024-01-15"
    started_at := some "2024-01-15T14:30:22Z"
    completed_at := some "2024-01-15T14:35:00Z"
    items_collected := 50
    items_processed := 42
    items_persisted := 42
    status := .completed
    error_message := none
    duration_seconds := some 278 }

def sampleRunsResponse : PipelineRunsResponse :=
  { runs := [sampleRun], count := 1 }

/-- C5 (amended): every record returned by the run-history operation has
the snake_case fields run_id, status, started_at, completed_at,
items_collected, items_processed, items_persisted, duration_seconds and
error_message, and its status is one of running | completed | failed. -/
theorem pipelineRun_fields_amended :
    (∀ f ∈ ["run_id", "status", "started_at", "completed_at",
        "items_collected", "items_processed", "items_persisted",
        "duration_seconds", "error_message"], f ∈ pipelineRunFields) ∧
    ∀ resp : PipelineRunsResponse, ∀ r ∈ resp.runs,
      r.status = PipelineStatus.running ∨
        r.status = PipelineStatus.completed ∨
        r.status = PipelineStatus.failed := by
  refine ⟨by decide, ?_⟩
  intro resp r _
  cases hs : r.status
  · exact Or.inl rfl
  · exact Or.inr (Or.inl rfl)
  · exact Or.inr (Or.inr rfl)

/-- Witness for the amended C5: the theorem applied to a concrete
run-history response holding one completed run. -/
theorem pipelineRun_fields_amended_witness :
    "run_id" ∈ pipelineRunFields ∧
    (sampleRun.status = PipelineStatus.running ∨
      sampleRun.status = PipelineStatus.completed ∨
      sampleRun.status = PipelineStatus.failed) :=
  ⟨pipelineRun_fields_amended.1 "run_id" (by decide),
   pipelineRun_fields_amended.2 sampleRunsResponse sampleRun
     (List.mem_singleton_self _)⟩

theorem parseArticleType_eq_some (s : String) (t : ArticleType) :
    parseArticleType s = some t ↔
      (s = "news" ∧ t = ArticleType.news) ∨
      (s = "tutorial" ∧ t = ArticleType.tutorial) := by
  unfold parseArticleType
  by_cases h1 : s = "news"
  · simp [h1, eq_comm]
  · by_cases h2 : s = "tutorial"
    · simp [h1, h2, eq_comm]
    · simp [h1, h2]

/-- Concrete raw summaries used as witnesses for the enricher-validation
theorems. -/
def sampleSummaryRaw : ArticleSummaryRaw :=
  { title := "New LLM Breakthrough Announced"
    summary := "Researchers have developed a faster model."
    key_points := ["50% improvement in reasoning"]
    topics := ["LLMs", "Research"]
    article_type := "news" }

def sampleSummaryOk : ArticleSummary :=
  { title := "New LLM Breakthrough Announced"
    summary := "Researchers have developed a faster model."
    key_points := ["50% improvement in reasoning"]
    topics := ["LLMs", "Research"]
    article_type := ArticleType.news }

def sampleTopicsRaw : ArticleSummaryRaw :=
  { title := "T"
    summary := "S"
    key_points := []
    topics := ["LLMs", "Blockchain"]
    article_type := "news" }

def sampleTopicsOk : ArticleSummary :=
  { title := "T"
    summary := "S"
    key_points := []
    topics := ["LLMs"]
    article_type := ArticleType.news }

/-- C6: every ProcessedItem produced by enrichment has an article type
drawn from exactly the two values news and tutorial (a raw result with
any other article type fails validation), and the article-type
enumerations at the public interface (`typeLabels`,
`articleTypeConfig`) cover exactly the values news and tutorial. -/
theorem articleType_enumeration :
    typeLabels.map Prod.fst = ["news", "tutorial"] ∧
    articleTypeConfig.map Prod.fst = ["news", "tutorial"] ∧
    (∀ r s, validateSummary r = some s →
      (r.article_type = "news" ∧ s.article_type = ArticleType.news) ∨
      (r.article_type = "tutorial" ∧ s.article_type = ArticleType.tutorial)) ∧
    (∀ r, ¬ (r.article_type = "news" ∨ r.article_type = "tutorial") →
      validateSummary r = none) := by
  refine ⟨rfl, rfl, ?_, ?_⟩
  · intro r s hv
    rw [validateSummary] at hv
    cases hty : parseArticleType r.article_type with
    | none => rw [hty] at hv; simp at hv
    | some ty =>
        rw [hty, Option.map_some'] at hv
        have hs := Option.some.inj hv
        rcases (parseArticleType_eq_some _ _).1 hty with ⟨he, ht⟩ | ⟨he, ht⟩
        · exact Or.inl ⟨he, by rw [← hs]; exact ht⟩
        · exact Or.inr ⟨he, by rw [← hs]; exact ht⟩
  · intro r hr
    rw [not_or] at hr
    rw [validateSummary, parseArticleType, if_neg hr.1, if_neg hr.2]
    rfl

/-- Witness for C6: the theorem applied to a concrete raw result with
article type news. -/
theorem articleType_enumeration_witness :
    (sampleSummaryRaw.article_type = "news" ∧
      sampleSummaryOk.article_type = ArticleType.news) ∨
    (sampleSummaryRaw.article_type = "tutorial" ∧
      sampleSummaryOk.article_type = ArticleType.tutorial) :=
  articleType_enumeration.2.2.1 sampleSummaryRaw sampleSummaryOk (by decide)

/-- C7: every validated ProcessedItem's topic set is a subset of the
fixed category enumeration — a topic outside the enumeration returned by
the external service is dropped, never passed through, while in-enumeration
topics are kept — and the topic enumeration at the public interface
(`topicColors`) covers exactly the fixed categories. -/
theorem topics_subset_enumeration :
    topicColors.map Prod.fst = TOPIC_CATEGORIES ∧
    ∀ r s, validateSummary r = some s →
      (∀ c ∈ s.topics, c ∈ TOPIC_CATEGORIES) ∧
      (∀ c, c ∉ TOPIC_CATEGORIES → c ∉ s.topics) ∧
      (∀ c ∈ r.topics, c ∈ TOPIC_CATEGORIES → c ∈ s.topics) := by
  refine ⟨rfl, ?_⟩
  intro r s hv
  rw [validateSummary] at hv
  cases hty : parseArticleType r.article_type with
  | none => rw [hty] at hv; simp at hv
  | some ty =>
      rw [hty, Option.map_some'] at hv
      have hs := Option.some.inj hv
      have htop : s.topics =
          r.topics.filter (fun c => decide (c ∈ TOPIC_CATEGORIES)) := by
        rw [← hs]
      refine ⟨?_, ?_, ?_⟩
      · intro c hc
        rw [htop] at hc
        simpa using (List.mem_filter.1 hc).2
      · intro c hcat hc
        rw [htop] at hc
        exact hcat (by simpa using (List.mem_filter.1 hc).2)
      · intro c hc hcat
        rw [htop]
        exact List.mem_filter.2 ⟨hc, by simpa using hcat⟩

/-- Witness for C7: the theorem applied to a concrete raw result carrying
one known topic and one unknown topic; the unknown topic is dropped. -/
theorem topics_subset_enumeration_witness :
    "LLMs" ∈ sampleTopicsOk.topics ∧ "Blockchain" ∉ sampleTopicsOk.topics := by
  obtain ⟨hsub, hdrop, hkeep⟩ :=
    topics_subset_enumeration.2 sampleTopicsRaw sampleTopicsOk (by decide)
  exact ⟨hkeep "LLMs" (by decide) (by decide), hdrop "Blockchain" (by decide)⟩

theorem append_s_ne_dash (y : String) : y ++ "s" ≠ "-" := by
  intro h
  have hd : y.data ++ ['s'] = ['-'] := by
    have hc := congrArg String.data h
    rwa [String.data_append] at hc
  have hlen : y.data.length + 1 = 1 := by
    have hc := congrArg List.length hd
    simpa using hc
  have hnil : y.data = [] :=
    List.eq_nil_of_length_eq_zero (Nat.succ_injective hlen)
  rw [hnil] at hd
  exact absurd hd (by decide)

/-- C10: `formatDuration` is total on (number | null): it returns the
dash placeholder exactly when the input is null; for every non-null value
below 60 it returns the rounded integer followed by s; and for every
value of at least 60 it returns floor(seconds/60) minutes and
round(seconds mod 60) seconds in the m/s format.  JS numbers are modelled
as exact rationals. -/
theorem formatDuration_spec :
    (∀ x : Option ℚ, formatDuration x = "-" ↔ x = none) ∧
    (∀ s : ℚ, s < 60 →
      formatDuration (some s) = toString (jsRound s) ++ "s") ∧
    (∀ s : ℚ, 60 ≤ s →
      formatDuration (some s) =
        toString ⌊s / 60⌋ ++ "m " ++
          toString (jsRound (s - 60 * ⌊s / 60⌋)) ++ "s") := by
  refine ⟨?_, ?_, ?_⟩
  · intro x
    cases x with
    | none => simp [formatDuration]
    | some s =>
        simp only [formatDuration]
        constructor
        · intro h
          by_cases hs : s < 60
          · rw [if_pos hs] at h
            exact absurd h (append_s_ne_dash _)
          · rw [if_neg hs] at h
            exact absurd h (append_s_ne_dash _)
        · intro h
          exact absurd h (Option.some_ne_none s)
  · intro s hs
    simp [formatDuration, hs]
  · intro s hs
    have h0 : ¬ s < 60 := not_lt.2 hs
    have hq : (0 : ℚ) ≤ s / 60 := by
      have h60 : (0 : ℚ) ≤ s := le_trans (by norm_num) hs
      positivity
    simp only [formatDuration, if_neg h0]
    rw [jsMod, jsTrunc, if_pos hq]

/-- Witness for C10: the theorem evaluated at null, at 45 seconds, and at
90 seconds. -/
theorem formatDuration_spec_witness :
    formatDuration none = "-" ∧
    formatDuration (some 45) = "45s" ∧
    formatDuration (some 90) = "1m 30s" := by
  refine ⟨(formatDuration_spec.1 none).2 rfl, ?_, ?_⟩
  · rw [formatDuration_spec.2.1 45 (by norm_num)]
    rw [show jsRound 45 = 45 by norm_num [jsRound]]
    decide
  · rw [formatDuration_spec.2.2 90 (by norm_num)]
    rw [show ⌊(90 : ℚ) / 60⌋ = 1 by norm_num]
    rw [show jsRound ((90 : ℚ) - 60 * ((1 : Int) : ℚ)) = 30 by
      norm_num [jsRound]]
    decide

end NewsAggregator
